import Mathlib

/-!
Verification of the EDMAS `AgentState` persistence codec.

Shallow embedding of `src/edmasbase_agent.py`: the `AgentState` dataclass,
its `to_firestore_dict` / `from_firestore_dict` codec, and the
`agent_id` line of `BaseTradingAgent.__init__`.

Python dictionaries are modelled as insertion-ordered association lists
with unique keys; Python values (`str`, `float`, `int`, `datetime`) are an
inductive `Value`; Python exceptions raised by the code are an inductive
`PyExn`.  CPython naive `datetime` together with `isoformat` /
`fromisoformat` is modelled component-wise; the parser covers exactly the
grammar `isoformat` emits (date, optional `T`-separated time, optional
six-digit fraction), with the range validation the `datetime` constructor
performs.  Float payloads are never computed with by the codec, only
carried; they are modelled as `Rat`.
-/

/-- A naive CPython `datetime.datetime` value, component-wise. -/
structure Datetime where
  year : Nat
  month : Nat
  day : Nat
  hour : Nat
  minute : Nat
  second : Nat
  microsecond : Nat
deriving DecidableEq, Repr

/-- Gregorian leap-year rule, as in CPython `calendar.isleap`. -/
def isLeap (y : Nat) : Bool :=
  (y % 4 == 0 && y % 100 != 0) || y % 400 == 0

/-- Days in a month, as validated by the CPython `datetime` constructor. -/
def daysInMonth (y m : Nat) : Nat :=
  if m = 2 then (if isLeap y then 29 else 28)
  else if m = 4 ∨ m = 6 ∨ m = 9 ∨ m = 11 then 30
  else 31

/-- The range checks the CPython `datetime` constructor performs
(`MINYEAR = 1`, `MAXYEAR = 9999`). -/
def validDatetime (d : Datetime) : Bool :=
  1 ≤ d.year && d.year ≤ 9999 &&
  1 ≤ d.month && d.month ≤ 12 &&
  1 ≤ d.day && d.day ≤ daysInMonth d.year d.month &&
  d.hour ≤ 23 && d.minute ≤ 59 && d.second ≤ 59 &&
  d.microsecond ≤ 999999

/-- Chronological order of naive datetimes via a strictly monotone key. -/
def Datetime.key (d : Datetime) : Nat :=
  ((((((d.year * 13 + d.month) * 32 + d.day) * 24 + d.hour) * 60
      + d.minute) * 60 + d.second) * 1000000 + d.microsecond)

/-- Chronological comparison: the first datetime is no later than the second. -/
def Datetime.leb (a b : Datetime) : Bool :=
  a.key ≤ b.key

/-- The ASCII digit character for `n < 10`. -/
def digitChar (n : Nat) : Char := Char.ofNat (48 + n)

/-- Two-digit zero-padded decimal rendering (`n < 100`). -/
def pad2 (n : Nat) : List Char :=
  [digitChar (n / 10), digitChar (n % 10)]

/-- Four-digit zero-padded decimal rendering (`n < 10000`). -/
def pad4 (n : Nat) : List Char :=
  [digitChar (n / 1000), digitChar (n / 100 % 10),
   digitChar (n / 10 % 10), digitChar (n % 10)]

/-- Six-digit zero-padded decimal rendering (`n < 1000000`). -/
def pad6 (n : Nat) : List Char :=
  [digitChar (n / 100000), digitChar (n / 10000 % 10),
   digitChar (n / 1000 % 10), digitChar (n / 100 % 10),
   digitChar (n / 10 % 10), digitChar (n % 10)]

/-- Character stream of CPython `datetime.isoformat()`:
`YYYY-MM-DDTHH:MM:SS`, with `.ffffff` appended exactly when the
microsecond component is nonzero. -/
def Datetime.isoChars (d : Datetime) : List Char :=
  pad4 d.year ++ ('-' :: (pad2 d.month ++ ('-' :: (pad2 d.day ++
  ('T' :: (pad2 d.hour ++ (':' :: (pad2 d.minute ++ (':' :: (pad2 d.second ++
  (if d.microsecond = 0 then [] else '.' :: pad6 d.microsecond)))))))))))

/-- CPython `datetime.isoformat()` on a naive datetime. -/
def Datetime.isoformat (d : Datetime) : String := ⟨d.isoChars⟩

/-- One ASCII decimal digit. -/
def parseDigit (c : Char) : Option Nat :=
  if 48 ≤ c.toNat ∧ c.toNat ≤ 57 then some (c.toNat - 48) else none

/-- Two decimal digits and the remaining stream. -/
def parse2 : List Char → Option (Nat × List Char)
  | c1 :: c2 :: rest => do
      let a ← parseDigit c1
      let b ← parseDigit c2
      pure (10 * a + b, rest)
  | _ => none

/-- Four decimal digits and the remaining stream. -/
def parse4 : List Char → Option (Nat × List Char)
  | c1 :: c2 :: c3 :: c4 :: rest => do
      let a ← parseDigit c1
      let b ← parseDigit c2
      let c ← parseDigit c3
      let d ← parseDigit c4
      pure (1000 * a + 100 * b + 10 * c + d, rest)
  | _ => none

/-- Six decimal digits and the remaining stream. -/
def parse6 : List Char → Option (Nat × List Char)
  | c1 :: c2 :: c3 :: c4 :: c5 :: c6 :: rest => do
      let a ← parseDigit c1
      let b ← parseDigit c2
      let c ← parseDigit c3
      let d ← parseDigit c4
      let e ← parseDigit c5
      let f ← parseDigit c6
      pure (100000 * a + 10000 * b + 1000 * c + 100 * d + 10 * e + f, rest)
  | _ => none

/-- Consume one expected character. -/
def expectChar (c : Char) : List Char → Option (List Char)
  | x :: rest => if x = c then some rest else none
  | [] => none

/-- Time-of-day part `HH:MM:SS[.ffffff]`; it must consume the whole
remaining stream. -/
def parseTimePart (l : List Char) : Option (Nat × Nat × Nat × Nat) := do
  let (h, l) ← parse2 l
  let l ← expectChar ':' l
  let (mi, l) ← parse2 l
  let l ← expectChar ':' l
  let (s, l) ← parse2 l
  match l with
  | [] => pure (h, mi, s, 0)
  | '.' :: l2 =>
      match parse6 l2 with
      | some (us, []) => pure (h, mi, s, us)
      | _ => none
  | _ => none

/-- CPython `datetime.fromisoformat` restricted to the grammar that
`isoformat` emits: `YYYY-MM-DD`, optionally followed by
`THH:MM:SS[.ffffff]`.  Component ranges are validated exactly as the
`datetime` constructor does; out-of-range or malformed input yields
`none` (a `ValueError` in CPython). -/
def fromisoChars (l : List Char) : Option Datetime := do
  let (y, l) ← parse4 l
  let l ← expectChar '-' l
  let (mo, l) ← parse2 l
  let l ← expectChar '-' l
  let (dd, l) ← parse2 l
  let (h, mi, s, us) ←
    match l with
    | [] => some ((0 : Nat), (0 : Nat), (0 : Nat), (0 : Nat))
    | 'T' :: l2 => parseTimePart l2
    | _ => none
  let dt : Datetime := ⟨y, mo, dd, h, mi, s, us⟩
  if validDatetime dt then some dt else none

/-- CPython `datetime.fromisoformat` on a string. -/
def fromisoformat (str : String) : Option Datetime :=
  fromisoChars str.data

/-- A Python runtime value as it occurs in this codec: `str`, `float`,
`int`, or `datetime`.  Float payloads are only carried by the codec,
never computed with, so they are modelled as `Rat`. -/
inductive Value where
  | str (s : String)
  | float (q : Rat)
  | int (n : Int)
  | dt (d : Datetime)
deriving DecidableEq, Repr

/-- The Python exceptions the embedded code can raise. -/
inductive PyExn where
  | keyError (key : String)
  | valueError (msg : String)
  | typeError (msg : String)
  | attributeError (msg : String)
deriving DecidableEq, Repr

deriving instance DecidableEq for Except

/-- A Python `dict` with string keys: an insertion-ordered association
list (keys are unique in every dictionary the code builds). -/
abbrev Doc := List (String × Value)

/-- Lookup of data[k]: the value stored under `k`, if any. -/
def getItem (data : Doc) (k : String) : Option Value :=
  match data with
  | [] => none
  | (k1, v1) :: rest => if k1 = k then some v1 else getItem rest k

/-- Assignment data[k] = v: replace in place when `k` is present
(keeping its position), append otherwise. -/
def setItem (data : Doc) (k : String) (v : Value) : Doc :=
  match data with
  | [] => [(k, v)]
  | (k1, v1) :: rest =>
      if k1 = k then (k, v) :: rest else (k1, v1) :: setItem rest k v

/-- The `AgentState` dataclass of `src/edmasbase_agent.py`.  CPython
dataclasses do not check the annotated types at runtime, so every field
holds an arbitrary `Value`; the annotations (`str`/`float`/`int`/
`datetime`) are captured by `validState` below. -/
structure AgentState where
  agent_id : Value
  agent_type : Value
  status : Value
  performance_score : Value
  created_at : Value
  last_heartbeat : Value
  configuration_hash : Value
  memory_usage_mb : Value
  error_count : Value
  success_count : Value
deriving DecidableEq, Repr

/-- The dataclass field names, in declaration order. -/
def fieldNames : List String :=
  ["agent_id", "agent_type", "status", "performance_score", "created_at",
   "last_heartbeat", "configuration_hash", "memory_usage_mb",
   "error_count", "success_count"]

/-- The call dataclasses.asdict(self): a fresh dictionary holding the ten
fields in declaration order (values deep-copied, so later mutation of
the dictionary cannot touch `self`). -/
def AgentState.asdict (self : AgentState) : Doc :=
  [("agent_id", self.agent_id), ("agent_type", self.agent_type),
   ("status", self.status), ("performance_score", self.performance_score),
   ("created_at", self.created_at), ("last_heartbeat", self.last_heartbeat),
   ("configuration_hash", self.configuration_hash),
   ("memory_usage_mb", self.memory_usage_mb),
   ("error_count", self.error_count), ("success_count", self.success_count)]

/-- The attribute call `v.isoformat()`: defined on datetime values,
an `AttributeError` on anything else. -/
def Value.isoformatCall : Value → Except PyExn Value
  | .dt d => .ok (.str d.isoformat)
  | _ => .error (.attributeError "isoformat")

/-- The call datetime.fromisoformat(v): parses a string (`ValueError` on
malformed or out-of-range text), raises `TypeError` on a non-string
argument. -/
def fromisoformatCall : Value → Except PyExn Datetime
  | .str s =>
      match fromisoformat s with
      | some d => .ok d
      | none => .error (.valueError ("Invalid isoformat string: " ++ s))
  | _ => .error (.typeError "fromisoformat: argument must be str")

/-- Encoder `AgentState.to_firestore_dict`: `asdict(self)`, then the two
timestamp entries are reassigned to their `isoformat()` strings.  The
mutations hit the fresh copy `asdict` returned, never `self`. -/
def AgentState.to_firestore_dict (self : AgentState) : Except PyExn Doc := do
  let data := self.asdict
  let ca ← self.created_at.isoformatCall
  let data := setItem data "created_at" ca
  let hb ← self.last_heartbeat.isoformatCall
  let data := setItem data "last_heartbeat" hb
  pure data

/-- One `cls(**data)` keyword lookup: a missing required argument is a
`TypeError`. -/
def getField (data : Doc) (k : String) : Except PyExn Value :=
  match getItem data k with
  | some v => .ok v
  | none => .error (.typeError ("missing a required argument: " ++ k))

/-- Keyword construction cls(**data) of the dataclass.  An unknown
keyword raises `TypeError`; a missing required argument raises
`TypeError`; `error_count` and `success_count` default to `0`.  No type
checking is performed on the values. -/
def mkAgentState (data : Doc) : Except PyExn AgentState :=
  match data.find? (fun p => !(fieldNames.contains p.1)) with
  | some p => .error (.typeError ("got an unexpected keyword argument " ++ p.1))
  | none => do
    let a ← getField data "agent_id"
    let t ← getField data "agent_type"
    let st ← getField data "status"
    let ps ← getField data "performance_score"
    let ca ← getField data "created_at"
    let hb ← getField data "last_heartbeat"
    let ch ← getField data "configuration_hash"
    let mu ← getField data "memory_usage_mb"
    pure { agent_id := a, agent_type := t, status := st,
           performance_score := ps, created_at := ca, last_heartbeat := hb,
           configuration_hash := ch, memory_usage_mb := mu,
           error_count := (getItem data "error_count").getD (.int 0),
           success_count := (getItem data "success_count").getD (.int 0) }

/-- Decoder `AgentState.from_firestore_dict`.  The Python body reassigns
`data[created_at]` and `data[last_heartbeat]` on the caller
dictionary before calling `cls(**data)`; the dictionary as left behind
by the call is returned as the second component, so the effect on the
argument is visible.  Each lookup/parse failure propagates the
exception at the point it is raised (`KeyError`, `ValueError`,
`TypeError`). -/
def AgentState.from_firestore_dict (data : Doc) :
    Except PyExn AgentState × Doc :=
  match getItem data "created_at" with
  | none => (.error (.keyError "created_at"), data)
  | some v =>
    match fromisoformatCall v with
    | .error e => (.error e, data)
    | .ok c =>
      let data1 := setItem data "created_at" (.dt c)
      match getItem data1 "last_heartbeat" with
      | none => (.error (.keyError "last_heartbeat"), data1)
      | some v2 =>
        match fromisoformatCall v2 with
        | .error e => (.error e, data1)
        | .ok hb =>
          let data2 := setItem data1 "last_heartbeat" (.dt hb)
          (mkAgentState data2, data2)

/-- The four enumerated status values of §3. -/
def statusValues : List String := ["ACTIVE", "PAUSED", "EVOLVING", "FAILED"]

/-- The value is a Python string. -/
def Value.isStr : Value → Bool
  | .str _ => true
  | _ => false

/-- The value is a Python float. -/
def Value.isFloat : Value → Bool
  | .float _ => true
  | _ => false

/-- The value is a non-negative Python integer. -/
def Value.isNonnegInt : Value → Bool
  | .int n => decide (0 ≤ n)
  | _ => false

/-- The value is a datetime the constructor accepts. -/
def Value.isValidDt : Value → Bool
  | .dt d => validDatetime d
  | _ => false

/-- The value is a string among the four enumerated status values. -/
def statusEnum : Value → Bool
  | .str st => statusValues.contains st
  | _ => false

/-- Both values are datetimes and the first is chronologically no later
than the second. -/
def dtValueLeb : Value → Value → Bool
  | .dt c, .dt hb => c.leb hb
  | _, _ => false

/-- Every field is populated with a value of its annotated type, the
timestamps are constructor-valid datetimes, the counters are
non-negative integers — but the status may be any string.  This is the
well-formedness the decoder could ever see restored; the status
enumeration and the timestamp ordering are checked on top of it by
`validState`. -/
def validStateAnyStatus (s : AgentState) : Bool :=
  s.agent_id.isStr && s.agent_type.isStr && s.status.isStr &&
  s.performance_score.isFloat && s.created_at.isValidDt &&
  s.last_heartbeat.isValidDt && s.configuration_hash.isStr &&
  s.memory_usage_mb.isFloat && s.error_count.isNonnegInt &&
  s.success_count.isNonnegInt

/-- A valid state record in the sense of §3: all ten fields populated
with values of the annotated types, status one of the four enumerated
values, and `created_at` no later than `last_heartbeat`. -/
def validState (s : AgentState) : Bool :=
  validStateAnyStatus s && statusEnum s.status &&
  dtValueLeb s.created_at s.last_heartbeat

/-- The concrete scenario record of the spec: `analyzer_ab12cd34`, ACTIVE,
score 0.73, created 2024-01-01T00:00:00, heartbeat 2024-01-01T00:05:00,
hash a1b2c3, 128.5 MB, 0 errors, 12 successes. -/
def sampleState : AgentState :=
  ⟨Value.str "analyzer_ab12cd34", Value.str "analyzer", Value.str "ACTIVE",
   Value.float (73 / 100), Value.dt ⟨2024, 1, 1, 0, 0, 0, 0⟩,
   Value.dt ⟨2024, 1, 1, 0, 5, 0, 0⟩, Value.str "a1b2c3",
   Value.float (257 / 2), Value.int 0, Value.int 12⟩

/-- A document with every required field present and well-typed but
with the status text `BANANAS`, outside the enumerated set. -/
def docBadStatus : Doc :=
  [("agent_id", Value.str "analyzer_ab12cd34"),
   ("agent_type", Value.str "analyzer"),
   ("status", Value.str "BANANAS"),
   ("performance_score", Value.float (73 / 100)),
   ("created_at", Value.str "2024-01-01T00:00:00"),
   ("last_heartbeat", Value.str "2024-01-01T00:05:00"),
   ("configuration_hash", Value.str "a1b2c3"),
   ("memory_usage_mb", Value.float (257 / 2)),
   ("error_count", Value.int 0), ("success_count", Value.int 12)]

/-- The eight dataclass fields without default values. -/
def requiredFieldNames : List String :=
  ["agent_id", "agent_type", "status", "performance_score", "created_at",
   "last_heartbeat", "configuration_hash", "memory_usage_mb"]

/-- A document with nine well-formed fields and `success_count`
absent. -/
def docNoSuccessCount : Doc :=
  [("agent_id", Value.str "analyzer_ab12cd34"),
   ("agent_type", Value.str "analyzer"),
   ("status", Value.str "ACTIVE"),
   ("performance_score", Value.float 1),
   ("created_at", Value.str "2024-01-01T00:00:00"),
   ("last_heartbeat", Value.str "2024-01-01T00:05:00"),
   ("configuration_hash", Value.str "a1b2c3"),
   ("memory_usage_mb", Value.float 128),
   ("error_count", Value.int 0)]

/-- A document with nine well-formed fields and `configuration_hash`
absent. -/
def docNoConfigHash : Doc :=
  [("agent_id", Value.str "analyzer_ab12cd34"),
   ("agent_type", Value.str "analyzer"),
   ("status", Value.str "ACTIVE"),
   ("performance_score", Value.float 1),
   ("created_at", Value.str "2024-01-01T00:00:00"),
   ("last_heartbeat", Value.str "2024-01-01T00:05:00"),
   ("memory_usage_mb", Value.float 128),
   ("error_count", Value.int 0), ("success_count", Value.int 12)]

/-- A full well-formed document except that `created_at` holds text
that is not a valid ISO-8601 timestamp. -/
def docBadTimestamp : Doc :=
  [("agent_id", Value.str "analyzer_ab12cd34"),
   ("agent_type", Value.str "analyzer"),
   ("status", Value.str "ACTIVE"),
   ("performance_score", Value.float 1),
   ("created_at", Value.str "not-a-timestamp"),
   ("last_heartbeat", Value.str "2024-01-01T00:05:00"),
   ("configuration_hash", Value.str "a1b2c3"),
   ("memory_usage_mb", Value.float 128),
   ("error_count", Value.int 0), ("success_count", Value.int 12)]

/-- A fully well-formed document, as the caller would pass it. -/
def docWellFormed : Doc :=
  [("agent_id", Value.str "analyzer_ab12cd34"),
   ("agent_type", Value.str "analyzer"),
   ("status", Value.str "ACTIVE"),
   ("performance_score", Value.float 1),
   ("created_at", Value.str "2024-01-01T00:00:00"),
   ("last_heartbeat", Value.str "2024-01-01T00:05:00"),
   ("configuration_hash", Value.str "a1b2c3"),
   ("memory_usage_mb", Value.float 128),
   ("error_count", Value.int 0), ("success_count", Value.int 12)]

/-- A well-formed document whose `last_heartbeat` (2024-01-01) is one
day earlier than its `created_at` (2024-01-02). -/
def docReversedTimestamps : Doc :=
  [("agent_id", Value.str "analyzer_ab12cd34"),
   ("agent_type", Value.str "analyzer"),
   ("status", Value.str "ACTIVE"),
   ("performance_score", Value.float 1),
   ("created_at", Value.str "2024-01-02T00:00:00"),
   ("last_heartbeat", Value.str "2024-01-01T00:00:00"),
   ("configuration_hash", Value.str "a1b2c3"),
   ("memory_usage_mb", Value.float 128),
   ("error_count", Value.int 0), ("success_count", Value.int 12)]

/-- The well-formed document extended with the unknown key
`extra_field`. -/
def docExtraKey : Doc :=
  [("agent_id", Value.str "analyzer_ab12cd34"),
   ("agent_type", Value.str "analyzer"),
   ("status", Value.str "ACTIVE"),
   ("performance_score", Value.float 1),
   ("created_at", Value.str "2024-01-01T00:00:00"),
   ("last_heartbeat", Value.str "2024-01-01T00:05:00"),
   ("configuration_hash", Value.str "a1b2c3"),
   ("memory_usage_mb", Value.float 128),
   ("error_count", Value.int 0), ("success_count", Value.int 12),
   ("extra_field", Value.int 7)]

/-- Lowercase hexadecimal digit — the alphabet of `uuid.uuid4().hex`. -/
def isLowerHexDigit (c : Char) : Bool :=
  c.isDigit || (97 ≤ c.toNat && c.toNat ≤ 102)

/-- The shape of `uuid.uuid4().hex`: 32 lowercase hexadecimal
characters. -/
def isUuidHex (u : List Char) : Bool :=
  u.length == 32 && u.all isLowerHexDigit

/-- The `agent_id` line of `BaseTradingAgent.__init__`:
`self.agent_id = agent_id or f"{agent_type}_{uuid.uuid4().hex[:8]}"`.
The freshly drawn random `uuid.uuid4().hex` enters as the parameter
`uuidHex`; `agent_id or ...` takes the generated name exactly when
`agent_id` is falsy (`None` or the empty string). -/
def initAgentId (agent_id : Option String) (agent_type : String)
    (uuidHex : List Char) : String :=
  let generated := agent_type ++ "_" ++ String.mk (uuidHex.take 8)
  match agent_id with
  | none => generated
  | some a => if a = "" then generated else a

theorem parseDigit_digitChar : ∀ n, n < 10 → parseDigit (digitChar n) = some n := by
  decide

theorem parse2_pad2 (n : Nat) (rest : List Char) (h : n < 100) :
    parse2 (pad2 n ++ rest) = some (n, rest) := by
  have h1 : n / 10 < 10 := by omega
  have h2 : n % 10 < 10 := by omega
  simp [pad2, parse2, parseDigit_digitChar _ h1, parseDigit_digitChar _ h2]
  omega

theorem parse4_pad4 (n : Nat) (rest : List Char) (h : n < 10000) :
    parse4 (pad4 n ++ rest) = some (n, rest) := by
  have h1 : n / 1000 < 10 := by omega
  have h2 : n / 100 % 10 < 10 := by omega
  have h3 : n / 10 % 10 < 10 := by omega
  have h4 : n % 10 < 10 := by omega
  simp [pad4, parse4, parseDigit_digitChar _ h1, parseDigit_digitChar _ h2,
    parseDigit_digitChar _ h3, parseDigit_digitChar _ h4]
  omega

theorem parse6_pad6 (n : Nat) (rest : List Char) (h : n < 1000000) :
    parse6 (pad6 n ++ rest) = some (n, rest) := by
  have h1 : n / 100000 < 10 := by omega
  have h2 : n / 10000 % 10 < 10 := by omega
  have h3 : n / 1000 % 10 < 10 := by omega
  have h4 : n / 100 % 10 < 10 := by omega
  have h5 : n / 10 % 10 < 10 := by omega
  have h6 : n % 10 < 10 := by omega
  simp [pad6, parse6, parseDigit_digitChar _ h1, parseDigit_digitChar _ h2,
    parseDigit_digitChar _ h3, parseDigit_digitChar _ h4,
    parseDigit_digitChar _ h5, parseDigit_digitChar _ h6]
  omega

theorem expectChar_cons (c : Char) (rest : List Char) :
    expectChar c (c :: rest) = some rest := by
  simp [expectChar]

theorem parse6_pad6_nil (n : Nat) (h : n < 1000000) :
    parse6 (pad6 n) = some (n, []) := by
  have := parse6_pad6 n [] h
  simpa using this

theorem daysInMonth_le (y m : Nat) : daysInMonth y m ≤ 31 := by
  unfold daysInMonth
  split
  · split <;> omega
  · split <;> omega

/-- Parsing inverts printing on the time-of-day fragment `isoformat`
emits. -/
theorem parseTimePart_emit (hh mi s us : Nat) (hhh : hh < 100)
    (hmi : mi < 100) (hss : s < 100) (hus : us < 1000000) :
    parseTimePart (pad2 hh ++ (':' :: (pad2 mi ++ (':' :: (pad2 s ++
      (if us = 0 then [] else '.' :: pad6 us)))))) = some (hh, mi, s, us) := by
  unfold parseTimePart
  rw [parse2_pad2 _ _ hhh]
  simp only [Option.bind_eq_bind, Option.some_bind, expectChar_cons]
  rw [parse2_pad2 _ _ hmi]
  simp only [Option.some_bind, expectChar_cons]
  rw [parse2_pad2 _ _ hss]
  simp only [Option.some_bind]
  by_cases hus0 : us = 0
  · subst hus0
    rw [if_pos rfl]
    rfl
  · rw [if_neg hus0]
    simp [parse6_pad6_nil us hus]

/-- Parsing inverts printing on every datetime the constructor accepts. -/
theorem fromisoChars_isoChars (d : Datetime) (h : validDatetime d = true) :
    fromisoChars d.isoChars = some d := by
  obtain ⟨y, mo, dd, hh, mi, s, us⟩ := d
  have hb := h
  simp only [validDatetime, Bool.and_eq_true, decide_eq_true_eq] at hb
  obtain ⟨⟨⟨⟨⟨⟨⟨⟨⟨hy1, hy2⟩, hm1⟩, hm2⟩, hd1⟩, hd2⟩, hh1⟩, hmi1⟩, hs1⟩, hus1⟩ := hb
  have hdm : daysInMonth y mo ≤ 31 := daysInMonth_le y mo
  unfold Datetime.isoChars fromisoChars
  dsimp only
  rw [parse4_pad4 _ _ (by omega)]
  simp only [Option.bind_eq_bind, Option.some_bind, expectChar_cons]
  rw [parse2_pad2 _ _ (by omega)]
  simp only [Option.some_bind, expectChar_cons]
  rw [parse2_pad2 _ _ (by omega)]
  simp only [Option.some_bind]
  rw [parseTimePart_emit hh mi s us (by omega) (by omega) (by omega) (by omega)]
  simp [h]

/-- String-level round trip for valid datetimes. -/
theorem fromisoformat_isoformat (d : Datetime) (h : validDatetime d = true) :
    fromisoformat d.isoformat = some d :=
  fromisoChars_isoChars d h

theorem isStr_iff (v : Value) : v.isStr = true ↔ ∃ s, v = Value.str s := by
  cases v <;> simp [Value.isStr]

theorem isFloat_iff (v : Value) : v.isFloat = true ↔ ∃ q, v = Value.float q := by
  cases v <;> simp [Value.isFloat]

theorem isNonnegInt_iff (v : Value) :
    v.isNonnegInt = true ↔ ∃ n : Int, v = Value.int n ∧ 0 ≤ n := by
  cases v <;> simp [Value.isNonnegInt]

theorem isValidDt_iff (v : Value) :
    v.isValidDt = true ↔ ∃ d, v = Value.dt d ∧ validDatetime d = true := by
  cases v <;> simp [Value.isValidDt]

/-- A record passing `validStateAnyStatus` is a fully-populated,
well-typed record with constructor-valid timestamps. -/
theorem validStateAnyStatus_shape (s : AgentState)
    (h : validStateAnyStatus s = true) :
    ∃ a t st ps c hb ch mu ec sc,
      s = ⟨Value.str a, Value.str t, Value.str st, Value.float ps,
           Value.dt c, Value.dt hb, Value.str ch, Value.float mu,
           Value.int ec, Value.int sc⟩ ∧
      validDatetime c = true ∧ validDatetime hb = true := by
  obtain ⟨fa, ft, fst, fps, fca, flh, fch, fmu, fec, fsc⟩ := s
  simp only [validStateAnyStatus, Bool.and_eq_true, isStr_iff, isFloat_iff,
    isNonnegInt_iff, isValidDt_iff] at h
  obtain ⟨⟨⟨⟨⟨⟨⟨⟨⟨⟨a, ha⟩, t, ht⟩, st, hst⟩, ps, hps⟩, c, hc, hcv⟩,
    hb, hhb, hhbv⟩, ch, hch⟩, mu, hmu⟩, ec, hec, _⟩, sc, hsc, _⟩ := h
  subst ha ht hst hps hc hhb hch hmu hec hsc
  exact ⟨a, t, st, ps, c, hb, ch, mu, ec, sc, rfl, hcv, hhbv⟩

theorem exceptBind_ok {α β : Type} (a : α) (f : α → Except PyExn β) :
    (Except.ok a : Except PyExn α) >>= f = f a := rfl

theorem exceptBind_err {α β : Type} (e : PyExn) (f : α → Except PyExn β) :
    (Except.error e : Except PyExn α) >>= f = Except.error e := rfl

theorem getItem_setItem_ne (d : Doc) (k k' : String) (v : Value)
    (h : k' ≠ k) : getItem (setItem d k v) k' = getItem d k' := by
  have h2 : ¬(k = k') := fun hh => h hh.symm
  induction d with
  | nil => simp [setItem, getItem, h2]
  | cons q rest ih =>
    obtain ⟨k1, v1⟩ := q
    by_cases hk : k1 = k
    · subst hk
      simp [setItem, getItem, h2]
    · simp [setItem, getItem, hk, ih]

theorem mem_setItem (d : Doc) (k : String) (v : Value) (p : String × Value)
    (hp : p ∈ d) (hne : p.1 ≠ k) : p ∈ setItem d k v := by
  induction d with
  | nil => cases hp
  | cons q rest ih =>
    obtain ⟨k1, v1⟩ := q
    rcases List.mem_cons.mp hp with rfl | hp2
    · simp only [setItem, if_neg hne]
      exact List.mem_cons_self _ _
    · by_cases hk : k1 = k
      · subst hk
        simp only [setItem, if_pos rfl]
        exact List.mem_cons_of_mem _ hp2
      · simp only [setItem, if_neg hk]
        exact List.mem_cons_of_mem _ (ih hp2)

/-- When `created_at` is absent the decoder raises `KeyError` at once,
leaving the dictionary untouched. -/
theorem from_firestore_dict_missing_ca (d : Doc)
    (h : getItem d "created_at" = none) :
    AgentState.from_firestore_dict d =
      (Except.error (PyExn.keyError "created_at"), d) := by
  unfold AgentState.from_firestore_dict
  rw [h]

/-- When the `created_at` parse raises, that exception propagates and
the dictionary is still untouched. -/
theorem from_firestore_dict_err1 (d : Doc) (v : Value) (e : PyExn)
    (h1 : getItem d "created_at" = some v)
    (h2 : fromisoformatCall v = Except.error e) :
    AgentState.from_firestore_dict d = (Except.error e, d) := by
  unfold AgentState.from_firestore_dict
  rw [h1]
  dsimp only
  rw [h2]

/-- When `last_heartbeat` is absent the decoder raises `KeyError`, with
`created_at` in the dictionary already overwritten. -/
theorem from_firestore_dict_missing_lh (d : Doc) (v : Value) (c : Datetime)
    (h1 : getItem d "created_at" = some v)
    (h2 : fromisoformatCall v = Except.ok c)
    (h3 : getItem d "last_heartbeat" = none) :
    AgentState.from_firestore_dict d =
      (Except.error (PyExn.keyError "last_heartbeat"),
       setItem d "created_at" (Value.dt c)) := by
  unfold AgentState.from_firestore_dict
  rw [h1]
  dsimp only
  rw [h2]
  dsimp only
  rw [getItem_setItem_ne d _ _ _ (by decide), h3]

/-- When the `last_heartbeat` parse raises, that exception propagates,
with `created_at` in the dictionary already overwritten. -/
theorem from_firestore_dict_err2 (d : Doc) (v v2 : Value) (c : Datetime)
    (e : PyExn)
    (h1 : getItem d "created_at" = some v)
    (h2 : fromisoformatCall v = Except.ok c)
    (h3 : getItem d "last_heartbeat" = some v2)
    (h4 : fromisoformatCall v2 = Except.error e) :
    AgentState.from_firestore_dict d =
      (Except.error e, setItem d "created_at" (Value.dt c)) := by
  unfold AgentState.from_firestore_dict
  rw [h1]
  dsimp only
  rw [h2]
  dsimp only
  rw [getItem_setItem_ne d _ _ _ (by decide), h3]
  dsimp only
  rw [h4]

/-- When both timestamp entries are present and parse, the decoder
overwrites both in the dictionary and hands the result to
`cls(**data)`. -/
theorem from_firestore_dict_step (d : Doc) (v v2 : Value) (c hb : Datetime)
    (h1 : getItem d "created_at" = some v)
    (h2 : fromisoformatCall v = Except.ok c)
    (h3 : getItem d "last_heartbeat" = some v2)
    (h4 : fromisoformatCall v2 = Except.ok hb) :
    AgentState.from_firestore_dict d =
      (mkAgentState
        (setItem (setItem d "created_at" (Value.dt c)) "last_heartbeat"
          (Value.dt hb)),
       setItem (setItem d "created_at" (Value.dt c)) "last_heartbeat"
         (Value.dt hb)) := by
  unfold AgentState.from_firestore_dict
  rw [h1]
  dsimp only
  rw [h2]
  dsimp only
  rw [getItem_setItem_ne d _ _ _ (by decide), h3]
  dsimp only
  rw [h4]

/-- Evaluating `to_firestore_dict` on a record whose timestamp fields hold
datetimes: the ten entries in field order, timestamps rendered to their
ISO strings, everything else passed through. -/
theorem to_firestore_dict_eq (a t st ps ch mu ec sc : Value)
    (c hb : Datetime) :
    (AgentState.mk a t st ps (Value.dt c) (Value.dt hb) ch mu ec
        sc).to_firestore_dict =
      Except.ok
        [("agent_id", a), ("agent_type", t), ("status", st),
         ("performance_score", ps), ("created_at", Value.str c.isoformat),
         ("last_heartbeat", Value.str hb.isoformat),
         ("configuration_hash", ch), ("memory_usage_mb", mu),
         ("error_count", ec), ("success_count", sc)] := by
  rfl

/-- Decoding an encoded document: both timestamps parse back (via the
ISO round trip) and `cls(**data)` restores the record; the returned
dictionary holds the parsed datetimes. -/
theorem from_firestore_dict_encoded (a t st ps ch mu ec sc : Value)
    (c hb : Datetime) (hc : validDatetime c = true)
    (hhb : validDatetime hb = true) :
    AgentState.from_firestore_dict
      [("agent_id", a), ("agent_type", t), ("status", st),
       ("performance_score", ps), ("created_at", Value.str c.isoformat),
       ("last_heartbeat", Value.str hb.isoformat),
       ("configuration_hash", ch), ("memory_usage_mb", mu),
       ("error_count", ec), ("success_count", sc)] =
      (Except.ok ⟨a, t, st, ps, Value.dt c, Value.dt hb, ch, mu, ec, sc⟩,
       [("agent_id", a), ("agent_type", t), ("status", st),
        ("performance_score", ps), ("created_at", Value.dt c),
        ("last_heartbeat", Value.dt hb), ("configuration_hash", ch),
        ("memory_usage_mb", mu), ("error_count", ec),
        ("success_count", sc)]) := by
  have hg1 : getItem
      [("agent_id", a), ("agent_type", t), ("status", st),
       ("performance_score", ps), ("created_at", Value.str c.isoformat),
       ("last_heartbeat", Value.str hb.isoformat),
       ("configuration_hash", ch), ("memory_usage_mb", mu),
       ("error_count", ec), ("success_count", sc)] "created_at"
      = some (Value.str c.isoformat) := by
    simp [getItem]
  have hg2 : getItem
      [("agent_id", a), ("agent_type", t), ("status", st),
       ("performance_score", ps), ("created_at", Value.str c.isoformat),
       ("last_heartbeat", Value.str hb.isoformat),
       ("configuration_hash", ch), ("memory_usage_mb", mu),
       ("error_count", ec), ("success_count", sc)] "last_heartbeat"
      = some (Value.str hb.isoformat) := by
    simp [getItem]
  have hp1 : fromisoformatCall (Value.str c.isoformat) = Except.ok c := by
    simp [fromisoformatCall, fromisoformat_isoformat c hc]
  have hp2 : fromisoformatCall (Value.str hb.isoformat) = Except.ok hb := by
    simp [fromisoformatCall, fromisoformat_isoformat hb hhb]
  rw [from_firestore_dict_step _ _ _ c hb hg1 hp1 hg2 hp2]
  rfl

/-- C1: for every valid state record (all ten fields populated with
values of the annotated types, status among the four enumerated values,
`created_at` ≤ `last_heartbeat`), decoding the encoding restores the
record field-for-field:
`AgentState.from_firestore_dict (s.to_firestore_dict()) == s`. -/
theorem C1_decode_encode_roundtrip (s : AgentState)
    (h : validState s = true) :
    Except.bind s.to_firestore_dict
      (fun d => (AgentState.from_firestore_dict d).1) = Except.ok s := by
  have hA : validStateAnyStatus s = true := by
    simp only [validState, Bool.and_eq_true] at h
    exact h.1.1
  obtain ⟨a, t, st, ps, c, hb, ch, mu, ec, sc, hs, hc, hhb⟩ :=
    validStateAnyStatus_shape s hA
  subst hs
  rw [to_firestore_dict_eq]
  show (AgentState.from_firestore_dict _).1 = _
  rw [from_firestore_dict_encoded (Value.str a) (Value.str t) (Value.str st)
    (Value.float ps) (Value.str ch) (Value.float mu) (Value.int ec)
    (Value.int sc) c hb hc hhb]

/-- C1 witness: the concrete scenario record of the spec is valid and round
trips. -/
theorem C1_roundtrip_witness :
    validState sampleState = true ∧
    Except.bind sampleState.to_firestore_dict
      (fun d => (AgentState.from_firestore_dict d).1) =
        Except.ok sampleState :=
  ⟨by decide, C1_decode_encode_roundtrip sampleState (by decide)⟩

/-- C2 counterexample: decoding a document whose status is the string
`BANANAS` — outside `{ACTIVE, PAUSED, EVOLVING, FAILED}` — does not
fail at all: it returns a state record carrying that status. -/
theorem C2_invalid_status_accepted_counterexample :
    (AgentState.from_firestore_dict docBadStatus).1 =
      Except.ok
        ⟨Value.str "analyzer_ab12cd34", Value.str "analyzer",
         Value.str "BANANAS", Value.float (73 / 100),
         Value.dt ⟨2024, 1, 1, 0, 0, 0, 0⟩,
         Value.dt ⟨2024, 1, 1, 0, 5, 0, 0⟩, Value.str "a1b2c3",
         Value.float (257 / 2), Value.int 0, Value.int 12⟩ := by
  rfl

/-- C2 amended: `from_firestore_dict` performs no validation of
`status` whatsoever — for every document whose other fields are present
and well-formed, any status string (enumerated or not) is accepted and
carried into the returned record unchanged. -/
theorem C2_no_status_validation (stText : String)
    (a t ps ch mu ec sc : Value) (c hb : Datetime)
    (hc : validDatetime c = true) (hhb : validDatetime hb = true) :
    (AgentState.from_firestore_dict
      [("agent_id", a), ("agent_type", t), ("status", Value.str stText),
       ("performance_score", ps), ("created_at", Value.str c.isoformat),
       ("last_heartbeat", Value.str hb.isoformat),
       ("configuration_hash", ch), ("memory_usage_mb", mu),
       ("error_count", ec), ("success_count", sc)]).1 =
      Except.ok
        ⟨a, t, Value.str stText, ps, Value.dt c, Value.dt hb, ch, mu,
         ec, sc⟩ := by
  rw [from_firestore_dict_encoded a t (Value.str stText) ps ch mu ec sc
    c hb hc hhb]

/-- C2 amended witness: the status `BANANAS` at concrete well-formed
timestamps is accepted. -/
theorem C2_no_status_validation_witness :
    validDatetime ⟨2024, 1, 1, 0, 0, 0, 0⟩ = true ∧
    validDatetime ⟨2024, 1, 1, 0, 5, 0, 0⟩ = true ∧
    (AgentState.from_firestore_dict
      [("agent_id", Value.str "a"), ("agent_type", Value.str "t"),
       ("status", Value.str "BANANAS"),
       ("performance_score", Value.float 1),
       ("created_at",
         Value.str (Datetime.isoformat ⟨2024, 1, 1, 0, 0, 0, 0⟩)),
       ("last_heartbeat",
         Value.str (Datetime.isoformat ⟨2024, 1, 1, 0, 5, 0, 0⟩)),
       ("configuration_hash", Value.str "h"),
       ("memory_usage_mb", Value.float 1),
       ("error_count", Value.int 0), ("success_count", Value.int 0)]).1 =
      Except.ok
        ⟨Value.str "a", Value.str "t", Value.str "BANANAS",
         Value.float 1, Value.dt ⟨2024, 1, 1, 0, 0, 0, 0⟩,
         Value.dt ⟨2024, 1, 1, 0, 5, 0, 0⟩, Value.str "h",
         Value.float 1, Value.int 0, Value.int 0⟩ :=
  ⟨by decide, by decide,
    C2_no_status_validation "BANANAS" (Value.str "a") (Value.str "t")
      (Value.float 1) (Value.str "h") (Value.float 1) (Value.int 0)
      (Value.int 0) ⟨2024, 1, 1, 0, 0, 0, 0⟩ ⟨2024, 1, 1, 0, 5, 0, 0⟩
      (by decide) (by decide)⟩

theorem getField_ok (data : Doc) (k : String) (v : Value)
    (h : getField data k = Except.ok v) : getItem data k = some v := by
  unfold getField at h
  cases hg : getItem data k with
  | none => rw [hg] at h; exact absurd h (by simp)
  | some w =>
      rw [hg] at h
      simp only [Except.ok.injEq] at h
      rw [h]

/-- If `cls(**data)` succeeds, every field without a default was
present in the keyword dictionary. -/
theorem mkAgentState_ok_present (data : Doc) (s : AgentState)
    (hok : mkAgentState data = Except.ok s) (k : String)
    (hk : k ∈ requiredFieldNames) : getItem data k ≠ none := by
  unfold mkAgentState at hok
  split at hok
  · exact absurd hok (by simp)
  · cases h1 : getField data "agent_id" with
    | error e => simp [h1, exceptBind_err] at hok
    | ok v1 =>
    simp only [h1, exceptBind_ok] at hok
    cases h2 : getField data "agent_type" with
    | error e => simp [h2, exceptBind_err] at hok
    | ok v2 =>
    simp only [h2, exceptBind_ok] at hok
    cases h3 : getField data "status" with
    | error e => simp [h3, exceptBind_err] at hok
    | ok v3 =>
    simp only [h3, exceptBind_ok] at hok
    cases h4 : getField data "performance_score" with
    | error e => simp [h4, exceptBind_err] at hok
    | ok v4 =>
    simp only [h4, exceptBind_ok] at hok
    cases h5 : getField data "created_at" with
    | error e => simp [h5, exceptBind_err] at hok
    | ok v5 =>
    simp only [h5, exceptBind_ok] at hok
    cases h6 : getField data "last_heartbeat" with
    | error e => simp [h6, exceptBind_err] at hok
    | ok v6 =>
    simp only [h6, exceptBind_ok] at hok
    cases h7 : getField data "configuration_hash" with
    | error e => simp [h7, exceptBind_err] at hok
    | ok v7 =>
    simp only [h7, exceptBind_ok] at hok
    cases h8 : getField data "memory_usage_mb" with
    | error e => simp [h8, exceptBind_err] at hok
    | ok v8 =>
    simp only [h8, exceptBind_ok, Except.map_ok] at hok
    simp only [requiredFieldNames, List.mem_cons, List.not_mem_nil,
      or_false] at hk
    rcases hk with rfl | rfl | rfl | rfl | rfl | rfl | rfl | rfl
    · rw [getField_ok data _ _ h1]; simp
    · rw [getField_ok data _ _ h2]; simp
    · rw [getField_ok data _ _ h3]; simp
    · rw [getField_ok data _ _ h4]; simp
    · rw [getField_ok data _ _ h5]; simp
    · rw [getField_ok data _ _ h6]; simp
    · rw [getField_ok data _ _ h7]; simp
    · rw [getField_ok data _ _ h8]; simp

/-- If the decoder succeeds, every default-less field was present in
the input document. -/
theorem from_firestore_dict_ok_present (d : Doc) (s : AgentState)
    (hok : (AgentState.from_firestore_dict d).1 = Except.ok s)
    (k : String) (hk : k ∈ requiredFieldNames) : getItem d k ≠ none := by
  cases hca : getItem d "created_at" with
  | none => rw [from_firestore_dict_missing_ca d hca] at hok; simp at hok
  | some v =>
  cases hpc : fromisoformatCall v with
  | error e =>
      rw [from_firestore_dict_err1 d v e hca hpc] at hok; simp at hok
  | ok c =>
  cases hlh : getItem d "last_heartbeat" with
  | none =>
      rw [from_firestore_dict_missing_lh d v c hca hpc hlh] at hok
      simp at hok
  | some v2 =>
  cases hpl : fromisoformatCall v2 with
  | error e =>
      rw [from_firestore_dict_err2 d v v2 c e hca hpc hlh hpl] at hok
      simp at hok
  | ok hb =>
  rw [from_firestore_dict_step d v v2 c hb hca hpc hlh hpl] at hok
  simp only at hok
  have hmk := mkAgentState_ok_present _ s hok k
  simp only [requiredFieldNames, List.mem_cons, List.not_mem_nil,
    or_false] at hk
  rcases hk with rfl | rfl | rfl | rfl | rfl | rfl | rfl | rfl
  · have := hmk (by simp [requiredFieldNames])
    rw [getItem_setItem_ne _ _ _ _ (by decide),
      getItem_setItem_ne _ _ _ _ (by decide)] at this
    exact this
  · have := hmk (by simp [requiredFieldNames])
    rw [getItem_setItem_ne _ _ _ _ (by decide),
      getItem_setItem_ne _ _ _ _ (by decide)] at this
    exact this
  · have := hmk (by simp [requiredFieldNames])
    rw [getItem_setItem_ne _ _ _ _ (by decide),
      getItem_setItem_ne _ _ _ _ (by decide)] at this
    exact this
  · have := hmk (by simp [requiredFieldNames])
    rw [getItem_setItem_ne _ _ _ _ (by decide),
      getItem_setItem_ne _ _ _ _ (by decide)] at this
    exact this
  · simp [hca]
  · simp [hlh]
  · have := hmk (by simp [requiredFieldNames])
    rw [getItem_setItem_ne _ _ _ _ (by decide),
      getItem_setItem_ne _ _ _ _ (by decide)] at this
    exact this
  · have := hmk (by simp [requiredFieldNames])
    rw [getItem_setItem_ne _ _ _ _ (by decide),
      getItem_setItem_ne _ _ _ _ (by decide)] at this
    exact this

/-- C3 counterexample: a document missing `success_count` (one of the
ten fields) does not make `from_firestore_dict` fail — the dataclass
default silently substitutes `0`. -/
theorem C3_missing_success_count_defaulted_counterexample :
    (AgentState.from_firestore_dict docNoSuccessCount).1 =
      Except.ok
        ⟨Value.str "analyzer_ab12cd34", Value.str "analyzer",
         Value.str "ACTIVE", Value.float 1,
         Value.dt ⟨2024, 1, 1, 0, 0, 0, 0⟩,
         Value.dt ⟨2024, 1, 1, 0, 5, 0, 0⟩, Value.str "a1b2c3",
         Value.float 128, Value.int 0, Value.int 0⟩ := by
  rfl

/-- C3 amended: a document missing any of the eight default-less
fields makes `from_firestore_dict` fail (with `KeyError` for the
timestamp fields, a `TypeError` from `cls(**data)` otherwise, never a
`MalformedRecordError`, which the repository does not define); a
missing `error_count` or `success_count` is silently defaulted to `0`
instead. -/
theorem C3_missing_required_field_fails (d : Doc) (k : String)
    (hk : k ∈ requiredFieldNames) (hnone : getItem d k = none) :
    ∃ e, (AgentState.from_firestore_dict d).1 = Except.error e := by
  cases hres : (AgentState.from_firestore_dict d).1 with
  | error e => exact ⟨e, rfl⟩
  | ok s => exact absurd hnone (from_firestore_dict_ok_present d s hres k hk)

/-- C3 witness: the concrete scenario of the spec — a document missing
`configuration_hash` fails to decode. -/
theorem C3_missing_config_hash_witness :
    "configuration_hash" ∈ requiredFieldNames ∧
    getItem docNoConfigHash "configuration_hash" = none ∧
    ∃ e, (AgentState.from_firestore_dict docNoConfigHash).1 =
      Except.error e :=
  ⟨by decide, by decide,
    C3_missing_required_field_fails docNoConfigHash "configuration_hash"
      (by decide) (by decide)⟩

/-- C4 counterexample: on invalid timestamp text the decoder does
fail, but the exception is the `ValueError` propagated from
`datetime.fromisoformat` — the repository defines no
`MalformedRecordError` class that could be raised. -/
theorem C4_valueerror_not_malformedrecord_counterexample :
    (AgentState.from_firestore_dict docBadTimestamp).1 =
      Except.error
        (PyExn.valueError "Invalid isoformat string: not-a-timestamp") := by
  rfl

/-- C4 amended: when `created_at` or `last_heartbeat` is present but
does not parse, `from_firestore_dict` fails by propagating the
exception of `datetime.fromisoformat` (`ValueError` for bad text,
`TypeError` for a non-string) — there is no `MalformedRecordError`
wrapper. -/
theorem C4_bad_timestamp_fails :
    (∀ (d : Doc) (v : Value) (e : PyExn),
      getItem d "created_at" = some v →
      fromisoformatCall v = Except.error e →
      (AgentState.from_firestore_dict d).1 = Except.error e) ∧
    (∀ (d : Doc) (v v2 : Value) (c : Datetime) (e : PyExn),
      getItem d "created_at" = some v →
      fromisoformatCall v = Except.ok c →
      getItem d "last_heartbeat" = some v2 →
      fromisoformatCall v2 = Except.error e →
      (AgentState.from_firestore_dict d).1 = Except.error e) := by
  constructor
  · intro d v e h1 h2
    rw [from_firestore_dict_err1 d v e h1 h2]
  · intro d v v2 c e h1 h2 h3 h4
    rw [from_firestore_dict_err2 d v v2 c e h1 h2 h3 h4]

/-- C4 witness: both parts applied at the concrete malformed document
(the first directly, the second at a document whose heartbeat text is
out of range — month 13). -/
theorem C4_bad_timestamp_fails_witness :
    (AgentState.from_firestore_dict docBadTimestamp).1 =
      Except.error
        (PyExn.valueError "Invalid isoformat string: not-a-timestamp") ∧
    (AgentState.from_firestore_dict
      [("created_at", Value.str "2024-01-01T00:00:00"),
       ("last_heartbeat", Value.str "2024-13-01T00:00:00")]).1 =
      Except.error
        (PyExn.valueError "Invalid isoformat string: 2024-13-01T00:00:00") :=
  ⟨C4_bad_timestamp_fails.1 docBadTimestamp
      (Value.str "not-a-timestamp")
      (PyExn.valueError "Invalid isoformat string: not-a-timestamp")
      (by decide) (by decide),
   C4_bad_timestamp_fails.2
      [("created_at", Value.str "2024-01-01T00:00:00"),
       ("last_heartbeat", Value.str "2024-13-01T00:00:00")]
      (Value.str "2024-01-01T00:00:00")
      (Value.str "2024-13-01T00:00:00") ⟨2024, 1, 1, 0, 0, 0, 0⟩
      (PyExn.valueError "Invalid isoformat string: 2024-13-01T00:00:00")
      (by decide) (by decide) (by decide) (by decide)⟩

/-- C5 counterexample: `from_firestore_dict` does not leave its
argument unchanged — the dictionary it leaves behind differs from the
one passed in (the timestamp entries were reassigned in place). -/
theorem C5_decode_mutates_argument_counterexample :
    (AgentState.from_firestore_dict docWellFormed).2 ≠ docWellFormed := by
  decide

/-- C5 amended: `to_firestore_dict` is pure — `asdict` hands it a
fresh deep copy, so its reassignments never touch the record.
`from_firestore_dict`, however, mutates the caller dictionary: on
success the `created_at` and `last_heartbeat` entries are left
overwritten with the parsed datetime objects. -/
theorem C5_decode_mutation_shape (d : Doc) (v v2 : Value)
    (c hb : Datetime)
    (h1 : getItem d "created_at" = some v)
    (h2 : fromisoformatCall v = Except.ok c)
    (h3 : getItem d "last_heartbeat" = some v2)
    (h4 : fromisoformatCall v2 = Except.ok hb) :
    (AgentState.from_firestore_dict d).2 =
      setItem (setItem d "created_at" (Value.dt c)) "last_heartbeat"
        (Value.dt hb) := by
  rw [from_firestore_dict_step d v v2 c hb h1 h2 h3 h4]

/-- C5 witness: the mutation shape at the concrete well-formed
document. -/
theorem C5_decode_mutation_shape_witness :
    (AgentState.from_firestore_dict docWellFormed).2 =
      setItem (setItem docWellFormed "created_at"
          (Value.dt ⟨2024, 1, 1, 0, 0, 0, 0⟩)) "last_heartbeat"
        (Value.dt ⟨2024, 1, 1, 0, 5, 0, 0⟩) :=
  C5_decode_mutation_shape docWellFormed
    (Value.str "2024-01-01T00:00:00") (Value.str "2024-01-01T00:05:00")
    ⟨2024, 1, 1, 0, 0, 0, 0⟩ ⟨2024, 1, 1, 0, 5, 0, 0⟩
    (by decide) (by decide) (by decide) (by decide)

/-- C6: for every valid state record the encoded document carries
exactly the ten field names, in declaration order — none missing, no
extras. -/
theorem C6_encode_exactly_ten_fields (s : AgentState)
    (h : validState s = true) :
    ∃ d, s.to_firestore_dict = Except.ok d ∧
      d.map Prod.fst = fieldNames := by
  have hA : validStateAnyStatus s = true := by
    simp only [validState, Bool.and_eq_true] at h
    exact h.1.1
  obtain ⟨a, t, st, ps, c, hb, ch, mu, ec, sc, hs, hc, hhb⟩ :=
    validStateAnyStatus_shape s hA
  subst hs
  exact ⟨_, to_firestore_dict_eq _ _ _ _ _ _ _ _ c hb, rfl⟩

/-- C6 witness: the concrete scenario record. -/
theorem C6_encode_exactly_ten_fields_witness :
    validState sampleState = true ∧
    ∃ d, sampleState.to_firestore_dict = Except.ok d ∧
      d.map Prod.fst = fieldNames :=
  ⟨by decide, C6_encode_exactly_ten_fields sampleState (by decide)⟩

/-- C7: for every valid state record the encoded document renders the
two timestamp fields as ISO-8601 strings (which parse back to exactly
the timestamps of the record) and passes every other field through
unchanged under its own name. -/
theorem C7_encode_values_shape (s : AgentState)
    (h : validState s = true) :
    ∃ d c hb,
      s.created_at = Value.dt c ∧ s.last_heartbeat = Value.dt hb ∧
      s.to_firestore_dict = Except.ok d ∧
      getItem d "created_at" = some (Value.str c.isoformat) ∧
      getItem d "last_heartbeat" = some (Value.str hb.isoformat) ∧
      fromisoformat c.isoformat = some c ∧
      fromisoformat hb.isoformat = some hb ∧
      getItem d "agent_id" = some s.agent_id ∧
      getItem d "agent_type" = some s.agent_type ∧
      getItem d "status" = some s.status ∧
      getItem d "performance_score" = some s.performance_score ∧
      getItem d "configuration_hash" = some s.configuration_hash ∧
      getItem d "memory_usage_mb" = some s.memory_usage_mb ∧
      getItem d "error_count" = some s.error_count ∧
      getItem d "success_count" = some s.success_count := by
  have hA : validStateAnyStatus s = true := by
    simp only [validState, Bool.and_eq_true] at h
    exact h.1.1
  obtain ⟨a, t, st, ps, c, hb, ch, mu, ec, sc, hs, hc, hhb⟩ :=
    validStateAnyStatus_shape s hA
  subst hs
  refine ⟨_, c, hb, rfl, rfl, to_firestore_dict_eq _ _ _ _ _ _ _ _ c hb,
    ?_, ?_, fromisoformat_isoformat c hc, fromisoformat_isoformat hb hhb,
    ?_, ?_, ?_, ?_, ?_, ?_, ?_, ?_⟩ <;> rfl

/-- C7 witness: the concrete scenario record. -/
theorem C7_encode_values_shape_witness :
    validState sampleState = true ∧
    (∃ d c hb,
      sampleState.created_at = Value.dt c ∧
      sampleState.last_heartbeat = Value.dt hb ∧
      sampleState.to_firestore_dict = Except.ok d ∧
      getItem d "created_at" = some (Value.str c.isoformat) ∧
      getItem d "last_heartbeat" = some (Value.str hb.isoformat) ∧
      fromisoformat c.isoformat = some c ∧
      fromisoformat hb.isoformat = some hb ∧
      getItem d "agent_id" = some sampleState.agent_id ∧
      getItem d "agent_type" = some sampleState.agent_type ∧
      getItem d "status" = some sampleState.status ∧
      getItem d "performance_score" = some sampleState.performance_score ∧
      getItem d "configuration_hash" =
        some sampleState.configuration_hash ∧
      getItem d "memory_usage_mb" = some sampleState.memory_usage_mb ∧
      getItem d "error_count" = some sampleState.error_count ∧
      getItem d "success_count" = some sampleState.success_count) :=
  ⟨by decide, C7_encode_values_shape sampleState (by decide)⟩

/-- C8 counterexample: decoding a document whose `last_heartbeat` is
earlier than its `created_at` is neither rejected nor flagged — it
returns the out-of-order record. -/
theorem C8_unordered_accepted_counterexample :
    (AgentState.from_firestore_dict docReversedTimestamps).1 =
      Except.ok
        ⟨Value.str "analyzer_ab12cd34", Value.str "analyzer",
         Value.str "ACTIVE", Value.float 1,
         Value.dt ⟨2024, 1, 2, 0, 0, 0, 0⟩,
         Value.dt ⟨2024, 1, 1, 0, 0, 0, 0⟩, Value.str "a1b2c3",
         Value.float 128, Value.int 0, Value.int 12⟩ ∧
    dtValueLeb (Value.dt ⟨2024, 1, 2, 0, 0, 0, 0⟩)
      (Value.dt ⟨2024, 1, 1, 0, 0, 0, 0⟩) = false :=
  ⟨by rfl, by decide⟩

/-- C8 amended: no public operation rejects or flags timestamp
disorder — neither the dataclass constructor nor the decoder checks it,
so for every pair of valid timestamps with the heartbeat strictly
earlier than the creation time, a record carrying that pair is
obtainable through `from_firestore_dict`. -/
theorem C8_unordered_state_obtainable (c hb : Datetime)
    (hc : validDatetime c = true) (hhb : validDatetime hb = true)
    (horder : Datetime.leb c hb = false) :
    ∃ (d : Doc) (s : AgentState),
      (AgentState.from_firestore_dict d).1 = Except.ok s ∧
      s.created_at = Value.dt c ∧ s.last_heartbeat = Value.dt hb := by
  refine ⟨[("agent_id", Value.str "a"), ("agent_type", Value.str "t"),
    ("status", Value.str "ACTIVE"), ("performance_score", Value.float 1),
    ("created_at", Value.str c.isoformat),
    ("last_heartbeat", Value.str hb.isoformat),
    ("configuration_hash", Value.str "h"),
    ("memory_usage_mb", Value.float 1),
    ("error_count", Value.int 0), ("success_count", Value.int 0)],
    ⟨Value.str "a", Value.str "t", Value.str "ACTIVE", Value.float 1,
     Value.dt c, Value.dt hb, Value.str "h", Value.float 1, Value.int 0,
     Value.int 0⟩, ?_, rfl, rfl⟩
  rw [from_firestore_dict_encoded (Value.str "a") (Value.str "t")
    (Value.str "ACTIVE") (Value.float 1) (Value.str "h") (Value.float 1)
    (Value.int 0) (Value.int 0) c hb hc hhb]

/-- C8 amended witness: created 2024-01-02, heartbeat 2024-01-01. -/
theorem C8_unordered_state_obtainable_witness :
    validDatetime ⟨2024, 1, 2, 0, 0, 0, 0⟩ = true ∧
    validDatetime ⟨2024, 1, 1, 0, 0, 0, 0⟩ = true ∧
    Datetime.leb ⟨2024, 1, 2, 0, 0, 0, 0⟩ ⟨2024, 1, 1, 0, 0, 0, 0⟩ =
      false ∧
    ∃ (d : Doc) (s : AgentState),
      (AgentState.from_firestore_dict d).1 = Except.ok s ∧
      s.created_at = Value.dt ⟨2024, 1, 2, 0, 0, 0, 0⟩ ∧
      s.last_heartbeat = Value.dt ⟨2024, 1, 1, 0, 0, 0, 0⟩ :=
  ⟨by decide, by decide, by decide,
    C8_unordered_state_obtainable ⟨2024, 1, 2, 0, 0, 0, 0⟩
      ⟨2024, 1, 1, 0, 0, 0, 0⟩ (by decide) (by decide) (by decide)⟩

/-- If the keyword dictionary holds any entry whose key is not a
dataclass field name, `cls(**data)` raises `TypeError`. -/
theorem mkAgentState_extra_key (data : Doc) (p : String × Value)
    (hmem : p ∈ data) (hextra : p.1 ∉ fieldNames) :
    ∃ m, mkAgentState data = Except.error (PyExn.typeError m) := by
  unfold mkAgentState
  split
  · exact ⟨_, rfl⟩
  · rename_i hnone
    have hp := List.find?_eq_none.mp hnone p hmem
    simp only [Bool.not_eq_true'] at hp
    exact absurd (of_decide_eq_true (by simpa using hp)) hextra

/-- C9: a document carrying all ten required fields plus any extra key
is rejected — `cls(**data)` raises `TypeError` for the unexpected
keyword argument rather than silently dropping it. -/
theorem C9_extra_key_rejected (d : Doc) (v v2 : Value) (c hb : Datetime)
    (hg1 : getItem d "created_at" = some v)
    (hp1 : fromisoformatCall v = Except.ok c)
    (hg2 : getItem d "last_heartbeat" = some v2)
    (hp2 : fromisoformatCall v2 = Except.ok hb)
    (hall : fieldNames.all (fun k => (getItem d k).isSome) = true)
    (p : String × Value) (hmem : p ∈ d) (hextra : p.1 ∉ fieldNames) :
    ∃ m, (AgentState.from_firestore_dict d).1 =
      Except.error (PyExn.typeError m) := by
  rw [from_firestore_dict_step d v v2 c hb hg1 hp1 hg2 hp2]
  have hne1 : p.1 ≠ "created_at" := by
    intro he
    exact hextra (by rw [he]; decide)
  have hne2 : p.1 ≠ "last_heartbeat" := by
    intro he
    exact hextra (by rw [he]; decide)
  exact mkAgentState_extra_key _ p
    (mem_setItem _ _ _ _ (mem_setItem _ _ _ _ hmem hne1) hne2) hextra

/-- C9 witness: the eleven-entry document is rejected with
`TypeError`. -/
theorem C9_extra_key_rejected_witness :
    ∃ m, (AgentState.from_firestore_dict docExtraKey).1 =
      Except.error (PyExn.typeError m) :=
  C9_extra_key_rejected docExtraKey
    (Value.str "2024-01-01T00:00:00") (Value.str "2024-01-01T00:05:00")
    ⟨2024, 1, 1, 0, 0, 0, 0⟩ ⟨2024, 1, 1, 0, 5, 0, 0⟩
    (by decide) (by decide) (by decide) (by decide) (by decide)
    ("extra_field", Value.int 7) (by decide) (by decide)

/-- C10: a supplied non-empty `agent_id` is kept unchanged; an omitted,
`None`, or empty `agent_id` is replaced by the agent type, an
underscore, and the first 8 hex characters of a fresh UUID. -/
theorem C10_agent_id_initialization (agent_id : Option String)
    (agent_type : String) (u : List Char) (hu : isUuidHex u = true) :
    (∀ a, agent_id = some a → a ≠ "" →
      initAgentId agent_id agent_type u = a) ∧
    ((agent_id = none ∨ agent_id = some "") →
      ∃ suffix : List Char,
        initAgentId agent_id agent_type u =
          agent_type ++ "_" ++ String.mk suffix ∧
        suffix.length = 8 ∧ suffix.all isLowerHexDigit = true) := by
  simp only [isUuidHex, Bool.and_eq_true, beq_iff_eq] at hu
  obtain ⟨hlen, hall⟩ := hu
  constructor
  · intro a ha hne
    subst ha
    simp [initAgentId, hne]
  · intro hcase
    refine ⟨u.take 8, ?_, ?_, ?_⟩
    · rcases hcase with rfl | rfl
      · rfl
      · rfl
    · rw [List.length_take, hlen]
      decide
    · rw [List.all_eq_true]
      intro x hx
      exact List.all_eq_true.mp hall x (List.take_subset 8 u hx)

/-- C10 witness: generated identity for an omitted `agent_id` with a
concrete UUID. -/
theorem C10_agent_id_initialization_witness :
    isUuidHex ("0123456789abcdef0123456789abcdef".data) = true ∧
    ((∀ a, (none : Option String) = some a → a ≠ "" →
      initAgentId none "generic"
        ("0123456789abcdef0123456789abcdef".data) = a) ∧
    (((none : Option String) = none ∨
        (none : Option String) = some "") →
      ∃ suffix : List Char,
        initAgentId none "generic"
            ("0123456789abcdef0123456789abcdef".data) =
          "generic" ++ "_" ++ String.mk suffix ∧
        suffix.length = 8 ∧ suffix.all isLowerHexDigit = true)) :=
  ⟨by decide,
    C10_agent_id_initialization none "generic"
      ("0123456789abcdef0123456789abcdef".data) (by decide)⟩
